import Mathlib

/-!
# Verification of the burger-shop cart/checkout core

Shallow embedding of `src/api/src/server.js`: the product catalog, the
totals computation (`computeTotals`), the cart-add route
(`POST /api/cart/add` with its zod `addSchema`), and the checkout
transaction (`POST /api/checkout`).

Modelling conventions:
* JavaScript integer-valued `number`s (prices in cents, quantities) are
  embedded as `ℤ`.
* `HST_RATE` is the configured decimal `0.13`, embedded as the rational
  `13/100`; JS `number` arithmetic on it is modelled as exact rational
  arithmetic.  (For every integer subtotal of magnitude below `2^46`,
  IEEE-754 double evaluation of `subtotal * 0.13` differs from the exact
  rational by far less than the distance to the nearest half-integer
  boundary that `Math.round` could be moved across — the double closest to
  `0.13` exceeds it by under `4.5e-18`, so the rounded result agrees with
  the exact-rational model on this program's inputs.)
* JS `Math.round` on non-negative values is round-half-up, i.e. `⌊x + 1/2⌋`,
  which is Mathlib's `round` on `ℚ` (ties toward `+∞`, matching
  `Math.round` for all signs).
* The MySQL store is embedded as explicit lists of rows plus an
  auto-increment counter; the transaction (`beginTransaction` … `commit` /
  `rollback`) is modelled by building the inserted rows and only installing
  them into the database state when every insert and the commit succeed.
  Which storage operations fail is abstracted by a `FailureSpec` oracle.
* `money` (cents → decimal-string display formatting) is presentation only;
  receipt fields are kept in integer cents.
-/

/-- A catalog entry (`PRODUCTS` array in server.js). -/
structure Product where
  sku : String
  name : String
  price_cents : ℤ
deriving DecidableEq, Repr

/-- The fixed catalog from server.js lines 17–21. -/
def PRODUCTS : List Product :=
  [ ⟨"burger", "Burger", 1000⟩,
    ⟨"fries",  "Fries",  800⟩,
    ⟨"coke",   "Coke",   300⟩ ]

/-- One cart line, as stored in `req.session.cart`. -/
structure CartLine where
  sku : String
  name : String
  unit_price_cents : ℤ
  qty : ℤ
deriving DecidableEq, Repr

/-- Configured tax rate: `HST_RATE = Number(process.env.HST_RATE || "0.13")`,
embedded as the exact rational `13/100`. -/
def HST_RATE : ℚ := 13 / 100

/-- Result record of `computeTotals`. -/
structure Totals where
  subtotal : ℤ
  hst : ℤ
  total : ℤ
deriving DecidableEq, Repr

/-- `computeTotals(items)` from server.js lines 27–32:
`subtotal = items.reduce((sum, it) => sum + it.unit_price_cents * it.qty, 0)`,
`hst = Math.round(subtotal * HST_RATE)`, `total = subtotal + hst`. -/
def computeTotals (items : List CartLine) : Totals :=
  let subtotal : ℤ := items.foldl (fun sum it => sum + it.unit_price_cents * it.qty) 0
  let hst : ℤ := round ((subtotal : ℚ) * HST_RATE)
  { subtotal := subtotal, hst := hst, total := subtotal + hst }

/-- Body of a `POST /api/cart/add` request: `sku` string and optional `qty`
(`none` models an omitted field, handled by zod's `.default(1)`). -/
structure AddRequest where
  sku : String
  qty : Option ℤ
deriving DecidableEq, Repr

/-- The zod `addSchema` (server.js lines 123–126):
`sku: z.enum(["burger","fries","coke"])`,
`qty: z.number().int().min(1).max(10).default(1)`.
Returns the parsed `(sku, qty)` on success, `none` on validation failure.
An omitted `qty` defaults to `1` before the bounds check. -/
def addSchemaParse (r : AddRequest) : Option (String × ℤ) :=
  let q := r.qty.getD 1
  if (r.sku = "burger" ∨ r.sku = "fries" ∨ r.sku = "coke") ∧ 1 ≤ q ∧ q ≤ 10 then
    some (r.sku, q)
  else
    none

/-- Increment the quantity of the first line matching `sku`
(JS `cart.find(x => x.sku === sku)` followed by `existing.qty += qty`). -/
def incFirst (cart : List CartLine) (sku : String) (qty : ℤ) : List CartLine :=
  match cart with
  | [] => []
  | x :: xs =>
      if x.sku = sku then { x with qty := x.qty + qty } :: xs
      else x :: incFirst xs sku qty

/-- Outcome of a `POST /api/cart/add` request: the HTTP response
(`.ok ()` for `{ ok: true }`, `.error` for an error response) and the
session cart afterwards. -/
structure AddOutcome where
  response : Except String Unit
  cart : List CartLine
deriving Repr

/-- `POST /api/cart/add` (server.js lines 128–141): validate via `addSchema`;
on failure respond 400 `invalid_input` before any mutation, leaving the cart
unchanged; on success look the product up in `PRODUCTS` and either increment
the existing line for that sku or append a new line priced from the catalog.
(The lookup's `none` branch is unreachable: the zod enum equals the catalog's
sku set, so a parsed sku is always found; in JS an undefined `p` would throw
when building the pushed line, mutating nothing.) -/
def cartAdd (r : AddRequest) (cart : List CartLine) : AddOutcome :=
  match addSchemaParse r with
  | none => ⟨.error "invalid_input", cart⟩
  | some (sku, qty) =>
      match PRODUCTS.find? (fun p => p.sku = sku) with
      | none => ⟨.error "unreachable_unknown_sku", cart⟩
      | some p =>
          if cart.any (fun x => x.sku = sku) then
            ⟨.ok (), incFirst cart sku qty⟩
          else
            ⟨.ok (), cart ++ [⟨p.sku, p.name, p.price_cents, qty⟩]⟩

/-- Total quantity held in the cart for a given sku (the sum over the lines
with that sku; carts built through `cartAdd` hold at most one such line). -/
def skuQty (cart : List CartLine) (sku : String) : ℤ :=
  ((cart.filter fun x => x.sku = sku).map CartLine.qty).sum

/-- A row of the `orders` table: `INSERT INTO orders
(subtotal_cents, hst_rate, hst_cents, total_cents)` plus the generated id. -/
structure OrderRow where
  id : ℕ
  subtotal_cents : ℤ
  hst_rate : ℚ
  hst_cents : ℤ
  total_cents : ℤ
deriving DecidableEq, Repr

/-- A row of the `order_items` table: `INSERT INTO order_items
(order_id, sku, name, unit_price_cents, qty, line_total_cents)`. -/
structure OrderItemRow where
  order_id : ℕ
  sku : String
  name : String
  unit_price_cents : ℤ
  qty : ℤ
  line_total_cents : ℤ
deriving DecidableEq, Repr

/-- The relational store: the two tables and the auto-increment counter
that supplies `orderResult.insertId`. -/
structure Db where
  orders : List OrderRow
  order_items : List OrderItemRow
  nextId : ℕ
deriving DecidableEq, Repr

/-- Which storage operations fail during the checkout transaction
(abstracting MySQL errors thrown by `conn.query` / `conn.commit`):
whether the `orders` insert fails, which `order_items` inserts fail
(by 0-based position in the cart), and whether the commit fails. -/
structure FailureSpec where
  orderInsertFails : Bool
  lineInsertFails : ℕ → Bool
  commitFails : Bool

/-- A failure oracle under which every storage operation succeeds. -/
def noFailure : FailureSpec :=
  { orderInsertFails := false, lineInsertFails := fun _ => false, commitFails := false }

/-- One receipt line (`receipt.items` in the checkout response); monetary
fields kept in cents — `money` string formatting is presentation only. -/
structure ReceiptItem where
  sku : String
  name : String
  qty : ℤ
  unit_price_cents : ℤ
  line_total_cents : ℤ
deriving DecidableEq, Repr

/-- The checkout response body (`receipt` object), in cents. -/
structure Receipt where
  order_id : ℕ
  items : List ReceiptItem
  subtotal_cents : ℤ
  hst_rate : ℚ
  hst_cents : ℤ
  total_cents : ℤ
deriving DecidableEq, Repr

/-- Errors returned by `POST /api/checkout`: 400 `cart_empty`
(the spec's `EmptyCart`) and 500 `checkout_failed` (the spec's
`CheckoutFailed`). -/
inductive CheckoutError where
  | cart_empty
  | checkout_failed
deriving DecidableEq, Repr

/-- The `order_items` rows inserted for a cart snapshot under order id
`orderId`: `lineTotal = it.unit_price_cents * it.qty` per line
(server.js lines 164–170). -/
def orderItemRows (orderId : ℕ) (cart : List CartLine) : List OrderItemRow :=
  cart.map fun it =>
    ⟨orderId, it.sku, it.name, it.unit_price_cents, it.qty,
      it.unit_price_cents * it.qty⟩

/-- The receipt built from the in-memory cart snapshot and the totals
(server.js lines 177–192). -/
def mkReceipt (orderId : ℕ) (cart : List CartLine) (totals : Totals) : Receipt :=
  { order_id := orderId
    items := cart.map fun it =>
      ⟨it.sku, it.name, it.qty, it.unit_price_cents, it.unit_price_cents * it.qty⟩
    subtotal_cents := totals.subtotal
    hst_rate := HST_RATE
    hst_cents := totals.hst
    total_cents := totals.total }

/-- Outcome of a checkout request: the HTTP response (receipt or error),
the database state afterwards, and the session cart afterwards. -/
structure CheckoutOutcome where
  response : Except CheckoutError Receipt
  db : Db
  cart : List CartLine
deriving Repr

/-- `POST /api/checkout` (server.js lines 148–199).  Empty cart → 400
`cart_empty` with nothing touched.  Otherwise compute totals from the cart
snapshot and run the transaction: insert the order row, insert one
`order_items` row per cart line, commit.  If the order insert, any line
insert, or the commit fails (per the `FailureSpec` oracle), the `catch`
block rolls the transaction back — the database keeps its pre-transaction
state — the cart is NOT cleared, and the response is 500 `checkout_failed`.
Only after a successful commit is the cart cleared and the receipt (built
from the same snapshot) returned. -/
def checkout (fs : FailureSpec) (cart : List CartLine) (db : Db) : CheckoutOutcome :=
  if cart = [] then
    ⟨.error .cart_empty, db, cart⟩
  else
    let totals := computeTotals cart
    if fs.orderInsertFails then
      ⟨.error .checkout_failed, db, cart⟩
    else
      let orderId := db.nextId
      if (List.range cart.length).any fs.lineInsertFails then
        ⟨.error .checkout_failed, db, cart⟩
      else if fs.commitFails then
        ⟨.error .checkout_failed, db, cart⟩
      else
        let order : OrderRow := ⟨orderId, totals.subtotal, HST_RATE, totals.hst, totals.total⟩
        ⟨.ok (mkReceipt orderId cart totals),
         ⟨db.orders ++ [order], db.order_items ++ orderItemRows orderId cart, db.nextId + 1⟩,
         []⟩

/-- `POST /api/cart/clear` (server.js lines 143–146): `req.session.cart = []`. -/
def cartClear (_cart : List CartLine) : List CartLine := []

/-! ## Concrete fixtures used by witnesses and examples -/

/-- The spec's example cart: one burger, one fries, two cokes
(`[(1000,1),(800,1),(300,2)]`). -/
def exampleCart : List CartLine :=
  [⟨"burger", "Burger", 1000, 1⟩, ⟨"fries", "Fries", 800, 1⟩, ⟨"coke", "Coke", 300, 2⟩]

/-- A cart whose subtotal is 50 cents, putting the tax `50 * 0.13 = 6.5`
exactly on a half-cent boundary. -/
def fiftyCart : List CartLine := [⟨"coke", "Coke", 50, 1⟩]

/-- A freshly bootstrapped database: empty tables, first auto-increment id 1. -/
def emptyDb : Db := ⟨[], [], 1⟩

/-- Oracle failing exactly the second (0-based index 1) `order_items` insert,
the spec's atomicity scenario. -/
def failSecondLine : FailureSpec :=
  { orderInsertFails := false, lineInsertFails := fun i => i == 1, commitFails := false }

/-! ## Invariant checkers (decidable, used to state persistence claims) -/

/-- The §3 order invariant for one `orders` row against a database:
`total = subtotal + hst`, `subtotal` equals the sum of `line_total_cents`
over the `order_items` rows referencing it, and each such row has
`line_total_cents = unit_price_cents * qty`. -/
def orderOK (db : Db) (o : OrderRow) : Bool :=
  (o.total_cents == o.subtotal_cents + o.hst_cents) &&
  (o.subtotal_cents ==
    (((db.order_items.filter fun it => it.order_id == o.id).map
        OrderItemRow.line_total_cents)).sum) &&
  ((db.order_items.filter fun it => it.order_id == o.id).all fun it =>
    it.line_total_cents == it.unit_price_cents * it.qty)

/-- Database well-formedness: every order satisfies the §3 invariant, and all
ids already used are below the auto-increment counter (true of a fresh MySQL
auto-increment table and preserved by inserts). -/
def dbOK (db : Db) : Bool :=
  (db.orders.all fun o => orderOK db o && decide (o.id < db.nextId)) &&
  (db.order_items.all fun it => decide (it.order_id < db.nextId))

/-- Every order of `post` was already in `pre` or has at least one
`order_items` row in `post` referencing it. -/
def ordersHaveLines (pre post : Db) : Bool :=
  post.orders.all fun o =>
    pre.orders.contains o || post.order_items.any fun it => it.order_id == o.id

/-! ## Helper lemmas -/

theorem computeTotals_subtotal (items : List CartLine) :
    (computeTotals items).subtotal
      = (items.map fun it => it.unit_price_cents * it.qty).sum := by
  simp only [computeTotals]
  rw [← List.foldl_map, List.sum_eq_foldl]

theorem computeTotals_hst (items : List CartLine) :
    (computeTotals items).hst
      = round (((computeTotals items).subtotal : ℚ) * HST_RATE) := rfl

theorem computeTotals_total (items : List CartLine) :
    (computeTotals items).total
      = (computeTotals items).subtotal + (computeTotals items).hst := rfl

theorem computeTotals_example : computeTotals exampleCart = ⟨2400, 312, 2712⟩ := by
  simp only [computeTotals, exampleCart, HST_RATE, List.foldl]
  norm_num [round_eq]

theorem computeTotals_fifty : computeTotals fiftyCart = ⟨50, 7, 57⟩ := by
  simp only [computeTotals, fiftyCart, HST_RATE, List.foldl]
  norm_num [round_eq]

/-! ## Claims -/

/-- C3: for every cart, `computeTotals` returns a subtotal exactly equal to
the sum over the lines of `unit_price * quantity` (exact integer arithmetic,
no floating-point rounding error) and a total exactly equal to
`subtotal + tax`; the example lines `[(1000,1),(800,1),(300,2)]` yield
subtotal `2400`. -/
theorem C3_subtotal_exact :
    (∀ items : List CartLine,
        (computeTotals items).subtotal
          = (items.map fun it => it.unit_price_cents * it.qty).sum
        ∧ (computeTotals items).total
          = (computeTotals items).subtotal + (computeTotals items).hst)
    ∧ (computeTotals exampleCart).subtotal = 2400 := by
  refine ⟨fun items => ⟨computeTotals_subtotal items, computeTotals_total items⟩, ?_⟩
  rw [computeTotals_example]

/-- C4: the tax computed by `computeTotals` equals
`round(subtotal * tax_rate)` with round-half-up rounding (`⌊x + 1/2⌋`, ties
toward `+∞`); an exact half-cent boundary rounds up (subtotal `50` gives tax
`6.5 → 7`); with rate `0.13` and subtotal `2400` the tax is `312` and the
total `2712`. -/
theorem C4_tax_round_half_up :
    (∀ items : List CartLine,
        (computeTotals items).hst
          = ⌊((computeTotals items).subtotal : ℚ) * HST_RATE + 1 / 2⌋)
    ∧ HST_RATE = 13 / 100
    ∧ ((computeTotals fiftyCart).subtotal = 50
        ∧ ((computeTotals fiftyCart).subtotal : ℚ) * HST_RATE = 13 / 2
        ∧ (computeTotals fiftyCart).hst = 7)
    ∧ ((computeTotals exampleCart).subtotal = 2400
        ∧ (computeTotals exampleCart).hst = 312
        ∧ (computeTotals exampleCart).total = 2712) := by
  refine ⟨fun items => ?_, rfl, ?_, ?_⟩
  · rw [computeTotals_hst, round_eq]
  · rw [computeTotals_fifty]
    norm_num [HST_RATE]
  · rw [computeTotals_example]
    exact ⟨rfl, rfl, rfl⟩

/-- C10: `computeTotals` is order-insensitive — permuting the cart's lines
leaves subtotal, tax and total unchanged. -/
theorem C10_perm_invariant (c₁ c₂ : List CartLine) (h : c₁.Perm c₂) :
    computeTotals c₁ = computeTotals c₂ := by
  have hs : (computeTotals c₁).subtotal = (computeTotals c₂).subtotal := by
    rw [computeTotals_subtotal, computeTotals_subtotal]
    exact (h.map fun it => it.unit_price_cents * it.qty).sum_eq
  simp only [computeTotals] at hs ⊢
  rw [hs]

/-- Witness for C10: swapping the two lines of a concrete cart gives
identical totals. -/
theorem C10_perm_invariant_witness :
    computeTotals [⟨"burger", "Burger", 1000, 2⟩, ⟨"coke", "Coke", 300, 1⟩]
      = computeTotals [⟨"coke", "Coke", 300, 1⟩, ⟨"burger", "Burger", 1000, 2⟩] :=
  C10_perm_invariant _ _ (by decide)

theorem incFirst_length (cart : List CartLine) (sku : String) (q : ℤ) :
    (incFirst cart sku q).length = cart.length := by
  induction cart with
  | nil => rfl
  | cons x xs ih =>
      by_cases h : x.sku = sku <;> simp [incFirst, h, ih]

theorem skuQty_incFirst (cart : List CartLine) (sku : String) (q : ℤ)
    (h : cart.any (fun x => x.sku = sku) = true) :
    skuQty (incFirst cart sku q) sku = skuQty cart sku + q := by
  induction cart with
  | nil => simp at h
  | cons x xs ih =>
      by_cases hx : x.sku = sku
      · simp [incFirst, hx, skuQty, List.filter_cons]
        ring
      · have h' : xs.any (fun x => x.sku = sku) = true := by
          simpa [List.any_cons, hx] using h
        simp only [incFirst, if_neg hx]
        simp only [skuQty, List.filter_cons, decide_eq_true_eq, if_neg hx] at ih ⊢
        exact ih h'

theorem skuQty_append (cart : List CartLine) (l : CartLine) (sku : String)
    (h : l.sku = sku) :
    skuQty (cart ++ [l]) sku = skuQty cart sku + l.qty := by
  simp [skuQty, List.filter_append, List.filter_cons, h]

/-- C5: a valid `add(sku, quantity)` (sku in the catalog, quantity in
`[1,10]`) increments the existing line for that sku by the requested amount
without creating a new line (the cart's length is unchanged and the sku's
total quantity grows by the request — the accumulated quantity is not
bounds-checked, the increment is unconditional); if no line for the sku
exists, a new line is appended with the requested quantity and the unit
price captured from the catalog. -/
theorem C5_add_accumulates (sku : String) (q : ℤ) (cart : List CartLine)
    (hsku : sku ∈ PRODUCTS.map Product.sku) (hq : 1 ≤ q ∧ q ≤ 10) :
    (cart.any (fun x => x.sku = sku) = true →
        cartAdd ⟨sku, some q⟩ cart = ⟨.ok (), incFirst cart sku q⟩
        ∧ (incFirst cart sku q).length = cart.length
        ∧ skuQty (incFirst cart sku q) sku = skuQty cart sku + q)
    ∧ (cart.any (fun x => x.sku = sku) = false →
        ∃ p, PRODUCTS.find? (fun x => x.sku = sku) = some p
          ∧ p.sku = sku
          ∧ cartAdd ⟨sku, some q⟩ cart
              = ⟨.ok (), cart ++ [⟨p.sku, p.name, p.price_cents, q⟩]⟩) := by
  have hsku' : sku = "burger" ∨ sku = "fries" ∨ sku = "coke" := by
    simpa [PRODUCTS] using hsku
  have hparse : addSchemaParse ⟨sku, some q⟩ = some (sku, q) := by
    unfold addSchemaParse
    exact if_pos ⟨hsku', hq.1, hq.2⟩
  constructor
  · intro hany
    refine ⟨?_, incFirst_length cart sku q, skuQty_incFirst cart sku q hany⟩
    rcases hsku' with h | h | h <;> subst h <;>
      simp [cartAdd, hparse, PRODUCTS, hany]
  · intro hany
    rcases hsku' with h | h | h <;> subst h <;>
      exact ⟨_, rfl, rfl, by simp [cartAdd, hparse, PRODUCTS, hany]⟩

/-- Witness for C5: `add("burger",1)` on an empty cart then `add("burger",2)`
yields a single line with quantity 3. -/
theorem C5_add_accumulates_witness :
    cartAdd ⟨"burger", some 1⟩ [] = ⟨.ok (), [⟨"burger", "Burger", 1000, 1⟩]⟩
    ∧ cartAdd ⟨"burger", some 2⟩ [⟨"burger", "Burger", 1000, 1⟩]
        = ⟨.ok (), incFirst [⟨"burger", "Burger", 1000, 1⟩] "burger" 2⟩
    ∧ incFirst [⟨"burger", "Burger", 1000, 1⟩] "burger" 2
        = [⟨"burger", "Burger", 1000, 3⟩] :=
  ⟨rfl,
   ((C5_add_accumulates "burger" 2 [⟨"burger", "Burger", 1000, 1⟩]
      (by decide) (by decide)).1 rfl).1,
   rfl⟩

/-- C6: `add` fails when the sku is not in the catalog (the spec's
`UnknownProduct`) and when the quantity lies outside `[1, 10]` (the spec's
`InvalidQuantity`); both surface as the route's 400 `invalid_input`
response, and in every such case the cart is left unchanged. -/
theorem C6_add_validation (r : AddRequest) (cart : List CartLine) :
    (r.sku ∉ PRODUCTS.map Product.sku →
        cartAdd r cart = ⟨.error "invalid_input", cart⟩)
    ∧ (∀ q : ℤ, r.qty = some q → ¬(1 ≤ q ∧ q ≤ 10) →
        cartAdd r cart = ⟨.error "invalid_input", cart⟩) := by
  constructor
  · intro hn
    have h' : ¬(r.sku = "burger" ∨ r.sku = "fries" ∨ r.sku = "coke") := by
      simpa [PRODUCTS] using hn
    have hparse : addSchemaParse r = none := by
      unfold addSchemaParse
      exact if_neg fun hc => h' hc.1
    simp [cartAdd, hparse]
  · intro q hq hb
    have hparse : addSchemaParse r = none := by
      unfold addSchemaParse
      rw [hq]
      exact if_neg fun hc => hb ⟨hc.2.1, hc.2.2⟩
    simp [cartAdd, hparse]

/-- Witness for C6: `add("pizza",1)` (unknown sku) and `add("burger",11)`
(quantity above `MAX_PER_LINE = 10`) are both rejected with the cart
unchanged. -/
theorem C6_add_validation_witness :
    cartAdd ⟨"pizza", some 1⟩ [] = ⟨.error "invalid_input", []⟩
    ∧ cartAdd ⟨"burger", some 11⟩ [⟨"coke", "Coke", 300, 1⟩]
        = ⟨.error "invalid_input", [⟨"coke", "Coke", 300, 1⟩]⟩ :=
  ⟨(C6_add_validation ⟨"pizza", some 1⟩ []).1 (by decide),
   (C6_add_validation ⟨"burger", some 11⟩ [⟨"coke", "Coke", 300, 1⟩]).2 11 rfl
     (by decide)⟩

/-- C9: an add request that omits `qty` entirely is not rejected — zod's
`.default(1)` makes it parse as quantity 1, the request succeeds, and the
sku's total quantity in the cart grows by exactly 1. -/
theorem C9_default_qty (sku : String) (cart : List CartLine)
    (hsku : sku ∈ PRODUCTS.map Product.sku) :
    addSchemaParse ⟨sku, none⟩ = some (sku, 1)
    ∧ (cartAdd ⟨sku, none⟩ cart).response = .ok ()
    ∧ skuQty (cartAdd ⟨sku, none⟩ cart).cart sku = skuQty cart sku + 1 := by
  have hsku' : sku = "burger" ∨ sku = "fries" ∨ sku = "coke" := by
    simpa [PRODUCTS] using hsku
  have hparse : addSchemaParse ⟨sku, none⟩ = some (sku, 1) := by
    unfold addSchemaParse
    exact if_pos ⟨hsku', by norm_num⟩
  refine ⟨hparse, ?_, ?_⟩ <;>
    · by_cases hany : cart.any (fun x => x.sku = sku) = true
      · rcases hsku' with h | h | h <;> subst h <;>
          simp [cartAdd, hparse, PRODUCTS, hany, skuQty_incFirst cart _ 1 hany]
      · rw [Bool.not_eq_true] at hany
        rcases hsku' with h | h | h <;> subst h <;>
          simp [cartAdd, hparse, PRODUCTS, hany, skuQty_append cart _ _ rfl]

/-- Witness for C9: `add("burger")` with no quantity field on the empty cart
succeeds and yields one burger. -/
theorem C9_default_qty_witness :
    addSchemaParse ⟨"burger", none⟩ = some ("burger", 1)
    ∧ (cartAdd ⟨"burger", none⟩ []).response = .ok ()
    ∧ skuQty (cartAdd ⟨"burger", none⟩ []).cart "burger" = skuQty [] "burger" + 1 :=
  C9_default_qty "burger" [] (by decide)

/-! ## Checkout path characterizations -/

theorem checkout_empty (fs : FailureSpec) (db : Db) :
    checkout fs [] db = ⟨.error .cart_empty, db, []⟩ := rfl

theorem checkout_fail (fs : FailureSpec) (cart : List CartLine) (db : Db)
    (hne : cart ≠ [])
    (hfail : fs.orderInsertFails = true
      ∨ (List.range cart.length).any fs.lineInsertFails = true
      ∨ fs.commitFails = true) :
    checkout fs cart db = ⟨.error .checkout_failed, db, cart⟩ := by
  cases ho : fs.orderInsertFails <;>
    cases hl : (List.range cart.length).any fs.lineInsertFails <;>
      cases hc : fs.commitFails <;>
        simp_all [checkout]

theorem checkout_success (fs : FailureSpec) (cart : List CartLine) (db : Db)
    (hne : cart ≠ [])
    (h1 : fs.orderInsertFails = false)
    (h2 : (List.range cart.length).any fs.lineInsertFails = false)
    (h3 : fs.commitFails = false) :
    checkout fs cart db =
      ⟨.ok (mkReceipt db.nextId cart (computeTotals cart)),
       ⟨db.orders ++ [⟨db.nextId, (computeTotals cart).subtotal, HST_RATE,
          (computeTotals cart).hst, (computeTotals cart).total⟩],
        db.order_items ++ orderItemRows db.nextId cart, db.nextId + 1⟩,
       []⟩ := by
  simp [checkout, hne, h1, h2, h3]

/-- Every checkout either leaves the database untouched or (on the success
path, with a nonempty cart) appends exactly one order row and its line rows
and bumps the id counter. -/
theorem checkout_db_cases (fs : FailureSpec) (cart : List CartLine) (db : Db) :
    (checkout fs cart db).db = db
    ∨ (cart ≠ [] ∧ (checkout fs cart db).db =
        ⟨db.orders ++ [⟨db.nextId, (computeTotals cart).subtotal, HST_RATE,
            (computeTotals cart).hst, (computeTotals cart).total⟩],
         db.order_items ++ orderItemRows db.nextId cart, db.nextId + 1⟩) := by
  by_cases hne : cart = []
  · subst hne
    exact Or.inl (congrArg CheckoutOutcome.db (checkout_empty fs db))
  · cases ho : fs.orderInsertFails
    · cases hl : (List.range cart.length).any fs.lineInsertFails
      · cases hc : fs.commitFails
        · exact Or.inr ⟨hne, congrArg CheckoutOutcome.db
            (checkout_success fs cart db hne ho hl hc)⟩
        · exact Or.inl (congrArg CheckoutOutcome.db
            (checkout_fail fs cart db hne (Or.inr (Or.inr hc))))
      · exact Or.inl (congrArg CheckoutOutcome.db
          (checkout_fail fs cart db hne (Or.inr (Or.inl hl))))
    · exact Or.inl (congrArg CheckoutOutcome.db
        (checkout_fail fs cart db hne (Or.inl ho)))

theorem orderItemRows_order_id (n : ℕ) (cart : List CartLine) :
    ∀ it ∈ orderItemRows n cart, it.order_id = n := by
  intro it hit
  simp only [orderItemRows, List.mem_map] at hit
  obtain ⟨l, _, rfl⟩ := hit
  rfl

/-- C2: checkout is atomic on failure — if the order insert, any order-line
insert, or the commit fails, the transaction is rolled back: the database is
exactly its pre-checkout state (no Order and no OrderLine rows from the
attempt persist), the cart is left unchanged (not cleared), and the caller
receives the 500 `checkout_failed` (`CheckoutFailed`) error. -/
theorem C2_checkout_atomic (fs : FailureSpec) (cart : List CartLine) (db : Db)
    (hne : cart ≠ [])
    (hfail : fs.orderInsertFails = true
      ∨ (List.range cart.length).any fs.lineInsertFails = true
      ∨ fs.commitFails = true) :
    checkout fs cart db = ⟨.error .checkout_failed, db, cart⟩ :=
  checkout_fail fs cart db hne hfail

/-- Witness for C2: the spec's scenario — a three-line cart whose second
order-line insert fails leaves zero rows in the empty database and the cart
intact. -/
theorem C2_checkout_atomic_witness :
    checkout failSecondLine exampleCart emptyDb
      = ⟨.error .checkout_failed, emptyDb, exampleCart⟩ :=
  C2_checkout_atomic failSecondLine exampleCart emptyDb (by decide)
    (Or.inr (Or.inl rfl))

/-- C7: checkout on a cart with zero lines fails with 400 `cart_empty`
(`EmptyCart`), persisting nothing and changing no state; moreover no checkout
ever creates a zero-line order — every order in the post-state was already
present or is referenced by at least one order-line row. -/
theorem C7_empty_cart (fs : FailureSpec) (db : Db) (cart : List CartLine) :
    checkout fs [] db = ⟨.error .cart_empty, db, []⟩
    ∧ ordersHaveLines db (checkout fs cart db).db = true := by
  refine ⟨checkout_empty fs db, ?_⟩
  rcases checkout_db_cases fs cart db with h | ⟨hne, h⟩ <;> rw [h]
  · simp only [ordersHaveLines, List.all_eq_true, Bool.or_eq_true]
    intro o ho
    exact Or.inl (by simpa using ho)
  · simp only [ordersHaveLines, List.all_eq_true, Bool.or_eq_true]
    intro o ho
    rcases List.mem_append.mp ho with ho | ho
    · exact Or.inl (by simpa using ho)
    · right
      obtain ⟨l, cart', rfl⟩ : ∃ l cart', cart = l :: cart' :=
        match cart, hne with
        | l :: cart', _ => ⟨l, cart', rfl⟩
      simp only [List.mem_singleton] at ho
      subst ho
      have hmem : (⟨db.nextId, l.sku, l.name, l.unit_price_cents, l.qty,
          l.unit_price_cents * l.qty⟩ : OrderItemRow)
            ∈ orderItemRows db.nextId (l :: cart') := by
        simp only [orderItemRows, List.map_cons]
        exact List.mem_cons_self _ _
      rw [List.any_eq_true]
      exact ⟨_, List.mem_append_right _ hmem, by simp⟩

/-- C8: after a successful checkout the cart is reset to empty (a subsequent
`view()` returns no lines), the response is the receipt built from the
pre-checkout cart snapshot via `mkReceipt` (not re-read from the store), and
the persisted order row and line rows carry exactly the totals and per-line
values computed from that same snapshot. -/
theorem C8_success_clears_cart (fs : FailureSpec) (cart : List CartLine) (db : Db)
    (hne : cart ≠ [])
    (h1 : fs.orderInsertFails = false)
    (h2 : (List.range cart.length).any fs.lineInsertFails = false)
    (h3 : fs.commitFails = false) :
    (checkout fs cart db).cart = []
    ∧ (checkout fs cart db).response
        = .ok (mkReceipt db.nextId cart (computeTotals cart))
    ∧ (checkout fs cart db).db.orders
        = db.orders ++ [⟨db.nextId, (computeTotals cart).subtotal, HST_RATE,
            (computeTotals cart).hst, (computeTotals cart).total⟩]
    ∧ (checkout fs cart db).db.order_items
        = db.order_items ++ orderItemRows db.nextId cart := by
  rw [checkout_success fs cart db hne h1 h2 h3]
  exact ⟨rfl, rfl, rfl, rfl⟩

theorem orderOK_of_filter_eq (db₁ db₂ : Db) (o : OrderRow)
    (h : (db₁.order_items.filter fun it => it.order_id == o.id)
       = db₂.order_items.filter fun it => it.order_id == o.id) :
    orderOK db₁ o = orderOK db₂ o := by
  simp only [orderOK, h]

/-- C1: every checkout code path preserves the §3 order invariant — if every
order of the database satisfies `total = subtotal + tax`,
`subtotal = Σ line_total` over its order lines, and
`line_total = unit_price * quantity` for each line (with ids below the
auto-increment counter, as in a fresh database), then after any checkout —
successful or failed, under any failure pattern — every persisted order still
does; in particular no checkout persists an order violating the equations. -/
theorem C1_order_invariants (fs : FailureSpec) (cart : List CartLine) (db : Db)
    (hdb : dbOK db = true) :
    dbOK (checkout fs cart db).db = true := by
  rcases checkout_db_cases fs cart db with h | ⟨hne, h⟩
  · rw [h]; exact hdb
  · rw [h]
    simp only [dbOK, List.all_eq_true, Bool.and_eq_true, decide_eq_true_eq] at hdb ⊢
    obtain ⟨hOrders, hItems⟩ := hdb
    have hfilter_old : ∀ o : OrderRow, o.id ≠ db.nextId →
        ((db.order_items ++ orderItemRows db.nextId cart).filter
            fun it => it.order_id == o.id)
          = db.order_items.filter fun it => it.order_id == o.id := by
      intro o hne'
      rw [List.filter_append]
      have hnil : (orderItemRows db.nextId cart).filter
          (fun it => it.order_id == o.id) = [] := by
        rw [List.filter_eq_nil_iff]
        intro it hit
        simp only [beq_iff_eq]
        rw [orderItemRows_order_id db.nextId cart it hit]
        exact fun hc => hne' hc.symm
      rw [hnil, List.append_nil]
    have hfilter_new :
        ((db.order_items ++ orderItemRows db.nextId cart).filter
            fun it => it.order_id == db.nextId)
          = orderItemRows db.nextId cart := by
      rw [List.filter_append]
      have h1 : db.order_items.filter (fun it => it.order_id == db.nextId) = [] := by
        rw [List.filter_eq_nil_iff]
        intro it hit
        simp only [beq_iff_eq]
        exact Nat.ne_of_lt (hItems it hit)
      have h2 : (orderItemRows db.nextId cart).filter
          (fun it => it.order_id == db.nextId) = orderItemRows db.nextId cart := by
        rw [List.filter_eq_self]
        intro it hit
        simp [orderItemRows_order_id db.nextId cart it hit]
      rw [h1, h2, List.nil_append]
    refine ⟨?_, ?_⟩
    · intro o ho
      rcases List.mem_append.mp ho with ho | ho
      · obtain ⟨hok, hlt⟩ := hOrders o ho
        refine ⟨?_, Nat.lt_succ_of_lt hlt⟩
        rw [orderOK_of_filter_eq _ db o (hfilter_old o (Nat.ne_of_lt hlt))]
        exact hok
      · simp only [List.mem_singleton] at ho
        subst ho
        refine ⟨?_, Nat.lt_succ_self _⟩
        simp only [orderOK, Bool.and_eq_true, beq_iff_eq]
        refine ⟨⟨computeTotals_total cart, ?_⟩, ?_⟩
        · rw [hfilter_new, computeTotals_subtotal]
          simp only [orderItemRows, List.map_map]
          rfl
        · rw [hfilter_new]
          simp only [List.all_eq_true]
          intro it hit
          simp only [orderItemRows, List.mem_map] at hit
          obtain ⟨l, _, rfl⟩ := hit
          simp
    · intro it hit
      rcases List.mem_append.mp hit with hit | hit
      · exact Nat.lt_succ_of_lt (hItems it hit)
      · rw [orderItemRows_order_id db.nextId cart it hit]
        exact Nat.lt_succ_self _

/-- Witness for C1: the fresh database satisfies the invariant, and it still
holds after a failure-free checkout of the example cart. -/
theorem C1_order_invariants_witness :
    dbOK (checkout noFailure exampleCart emptyDb).db = true :=
  C1_order_invariants noFailure exampleCart emptyDb rfl

/-- Witness for C8: a failure-free checkout of the example cart on the fresh
database clears the cart and persists/returns the snapshot's totals. -/
theorem C8_success_clears_cart_witness :
    (checkout noFailure exampleCart emptyDb).cart = []
    ∧ (checkout noFailure exampleCart emptyDb).response
        = .ok (mkReceipt emptyDb.nextId exampleCart (computeTotals exampleCart))
    ∧ (checkout noFailure exampleCart emptyDb).db.orders
        = emptyDb.orders ++ [⟨emptyDb.nextId, (computeTotals exampleCart).subtotal,
            HST_RATE, (computeTotals exampleCart).hst, (computeTotals exampleCart).total⟩]
    ∧ (checkout noFailure exampleCart emptyDb).db.order_items
        = emptyDb.order_items ++ orderItemRows emptyDb.nextId exampleCart :=
  C8_success_clears_cart noFailure exampleCart emptyDb (by decide) rfl rfl rfl
